import Mathlib

/-
  Shallow embedding of src/shared_ptr.h: a manual reference-counted
  shared/weak pointer pair built on a `counting_block` that tracks a
  strong count (`counter`) and a weak count (`weak_counter`).

  Modelling choices:
  * Raw pointers are modelled as `Option Nat` (addresses; `none` = nullptr).
  * Control blocks live in an explicit heap indexed by `Nat` ids;
    `blocks i = none` means the block at id `i` is unallocated or freed.
  * The C++ counters are `size_t`, so increments and decrements are
    taken modulo 2^64 (`inc64` / `dec64`).
  * Ghost instrumentation (never read by the translated code itself)
    records lifetime events: `deleterCalls p` counts invocations of a
    pointing block's deleter on pointer `p` (including the failure-path
    call `d(ptr)` in the raw-pointer constructor and in `reset`),
    `destroyCalls i` counts in-place destructor runs of an owning
    block's embedded object, `freeCalls i` counts `delete m_block`
    executions, and `strongReleaseCalls i` counts `delete_shared`
    invocations on block `i`.
  * C++ exception flow: the raw-pointer constructor and `reset` catch
    the allocation failure and do not rethrow, so the translated
    functions return a Bool recording whether an exception escaped
    (always `false`, mirroring the source).  Allocation success or
    failure of `new` is an environment choice passed as a Bool.
  * `&rhs == this` identity checks are modelled by a `sameObject`
    Bool argument, since the value model cannot see object identity.
-/

namespace SPtr

def size_max : Nat := 2 ^ 64

def inc64 (n : Nat) : Nat := (n + 1) % size_max

def dec64 (n : Nat) : Nat := (n + (size_max - 1)) % size_max

/-- Payload of a control block: `owning` embeds storage for the managed
value (`none` once the in-place destructor has run), `pointing` stores
the adopted raw pointer (the deleter itself is tracked via ghost
instrumentation on the heap). -/
inductive BlockData (V : Type) where
  | owning (val : Option V)
  | pointing (object : Option Nat)
deriving DecidableEq

/-- The control block of src/shared_ptr.h: strong count `counter`,
weak count `weak_counter`, plus the polymorphic payload. -/
structure counting_block (V : Type) where
  counter : Nat
  weak_counter : Nat
  data : BlockData V
deriving DecidableEq

/-- Explicit heap of control blocks plus ghost event counters. -/
@[ext]
structure Heap (V : Type) where
  blocks : Nat → Option (counting_block V)
  next : Nat
  deleterCalls : Option Nat → Nat
  destroyCalls : Nat → Nat
  freeCalls : Nat → Nat
  strongReleaseCalls : Nat → Nat

/-- A shared_ptr value: control-block handle plus element pointer. -/
structure SharedPtr where
  m_block : Option Nat
  m_ptr : Option Nat
deriving DecidableEq

/-- A weak_ptr value: control-block handle plus cached element pointer. -/
structure WeakPtr where
  m_block : Option Nat
  m_ptr : Option Nat
deriving DecidableEq

variable {V : Type}

def Heap.empty (V : Type) : Heap V :=
  ⟨fun _ => none, 0, fun _ => 0, fun _ => 0, fun _ => 0, fun _ => 0⟩

def Heap.setBlock (h : Heap V) (i : Nat) (b : counting_block V) : Heap V :=
  { h with blocks := fun j => if j = i then some b else h.blocks j }

def Heap.bumpDeleter (h : Heap V) (p : Option Nat) : Heap V :=
  { h with deleterCalls := fun q => if q = p then h.deleterCalls q + 1 else h.deleterCalls q }

def Heap.bumpDestroy (h : Heap V) (i : Nat) : Heap V :=
  { h with destroyCalls := fun j => if j = i then h.destroyCalls j + 1 else h.destroyCalls j }

def Heap.bumpStrongRelease (h : Heap V) (i : Nat) : Heap V :=
  { h with strongReleaseCalls :=
      fun j => if j = i then h.strongReleaseCalls j + 1 else h.strongReleaseCalls j }

/-- Models the C++ statement delete m_block: the block's memory is
reclaimed (removed from the heap); ghost `freeCalls` records the event. -/
def Heap.freeBlock (h : Heap V) (i : Nat) : Heap V :=
  { h with blocks := fun j => if j = i then none else h.blocks j,
           freeCalls := fun j => if j = i then h.freeCalls j + 1 else h.freeCalls j }

/-- Models a successful new of a control block: counters start at 0
(the in-class initializers of `counting_block`), a fresh id is used. -/
def Heap.allocBlock (h : Heap V) (d : BlockData V) : Heap V × Nat :=
  ({ h with blocks := fun j => if j = h.next then some ⟨0, 0, d⟩ else h.blocks j,
            next := h.next + 1 }, h.next)

/-- counting_block::add_shared: ++counter; ++weak_counter. -/
def Heap.add_shared (h : Heap V) (i : Nat) : Heap V :=
  match h.blocks i with
  | some b => h.setBlock i ⟨inc64 b.counter, inc64 b.weak_counter, b.data⟩
  | none => h

/-- counting_block::add_weak: ++weak_counter. -/
def Heap.add_weak (h : Heap V) (i : Nat) : Heap V :=
  match h.blocks i with
  | some b => h.setBlock i ⟨b.counter, inc64 b.weak_counter, b.data⟩
  | none => h

/-- The virtual delete_object: owning_block destroys the embedded
object in place; pointing_block invokes deleter(object). -/
def Heap.delete_object (h : Heap V) (i : Nat) : Heap V :=
  match h.blocks i with
  | some b =>
    match b.data with
    | BlockData.owning _ =>
        (h.setBlock i ⟨b.counter, b.weak_counter, BlockData.owning none⟩).bumpDestroy i
    | BlockData.pointing p => h.bumpDeleter p
  | none => h

/-- counting_block::delete_shared: --counter; --weak_counter;
if (!counter) delete_object(). Note: it never frees the block. -/
def Heap.delete_shared (h : Heap V) (i : Nat) : Heap V :=
  match h.blocks i with
  | some b =>
    let c := dec64 b.counter
    let w := dec64 b.weak_counter
    let h1 := (h.setBlock i ⟨c, w, b.data⟩).bumpStrongRelease i
    if c = 0 then h1.delete_object i else h1
  | none => h

/-- counting_block::should_delete_weak: return !(--weak_counter). -/
def Heap.should_delete_weak (h : Heap V) (i : Nat) : Heap V × Bool :=
  match h.blocks i with
  | some b =>
    let w := dec64 b.weak_counter
    (h.setBlock i ⟨b.counter, w, b.data⟩, w == 0)
  | none => (h, false)

/-- add_shared_or_null: block ? block->add_shared() : block. -/
def Heap.add_shared_or_null (h : Heap V) : Option Nat → Heap V × Option Nat
  | none => (h, none)
  | some i => (h.add_shared i, some i)

/-- add_weak_or_null: block ? block->add_weak() : block. -/
def Heap.add_weak_or_null (h : Heap V) : Option Nat → Heap V × Option Nat
  | none => (h, none)
  | some i => (h.add_weak i, some i)

/-- Address of the embedded storage of the owning block with id `i`
(owning_block::get_ptr). -/
def embeddedAddr (i : Nat) : Nat := i

/-- shared_ptr(Y* ptr, Deleter d): m_ptr is set to ptr in the init
list; on allocation success a pointing_block is allocated and
add_shared runs; on failure the deleter is invoked on ptr and the
exception is swallowed (no rethrow in the catch). The final Bool
records whether an exception escaped the constructor. -/
def sharedFromRaw (h : Heap V) (ptr : Option Nat) (alloc : Bool) : Heap V × SharedPtr × Bool :=
  if alloc then
    let p := h.allocBlock (BlockData.pointing ptr)
    (p.1.add_shared p.2, ⟨some p.2, ptr⟩, false)
  else
    (h.bumpDeleter ptr, ⟨none, ptr⟩, false)

/-- shared_ptr copy / converting-copy constructor. -/
def SharedPtr.copy (s : SharedPtr) (h : Heap V) : Heap V × SharedPtr :=
  let p := h.add_shared_or_null s.m_block
  (p.1, ⟨p.2, s.m_ptr⟩)

/-- Aliasing constructor shared_ptr(master, slave). -/
def SharedPtr.aliasCtor (master : SharedPtr) (slave : Option Nat) (h : Heap V) :
    Heap V × SharedPtr :=
  let p := h.add_shared_or_null master.m_block
  (p.1, ⟨p.2, slave⟩)

/-- shared_ptr::operator=(const shared_ptr&). `sameObject` models the
address identity check &rhs == this. Note the source releases the
current block whenever the handles are distinct objects, even if both
reference the same block. -/
def SharedPtr.assign (t rhs : SharedPtr) (sameObject : Bool) (h : Heap V) :
    Heap V × SharedPtr :=
  if sameObject then (h, t)
  else
    let h1 := match t.m_block with
      | some i => h.delete_shared i
      | none => h
    let p := h1.add_shared_or_null rhs.m_block
    (p.1, ⟨p.2, rhs.m_ptr⟩)

/-- shared_ptr move constructor: returns (heap, new handle, moved-from
source). Counts are untouched; the source is nulled. -/
def SharedPtr.moveCtor (s : SharedPtr) (h : Heap V) : Heap V × SharedPtr × SharedPtr :=
  (h, ⟨s.m_block, s.m_ptr⟩, ⟨none, none⟩)

/-- shared_ptr::operator=(shared_ptr&&). -/
def SharedPtr.moveAssign (t other : SharedPtr) (sameObject : Bool) (h : Heap V) :
    Heap V × SharedPtr × SharedPtr :=
  if sameObject then (h, t, other)
  else
    let h1 := match t.m_block with
      | some i => h.delete_shared i
      | none => h
    (h1, ⟨other.m_block, other.m_ptr⟩, ⟨none, none⟩)

/-- shared_ptr(const weak_ptr&): add_shared_or_null on the weak
handle's block, copying the cached pointer. No expired() check. -/
def sharedFromWeak (w : WeakPtr) (h : Heap V) : Heap V × SharedPtr :=
  let p := h.add_shared_or_null w.m_block
  (p.1, ⟨p.2, w.m_ptr⟩)

/-- shared_ptr::~shared_ptr: if (m_block) m_block->delete_shared().
Note: the destructor never frees the block itself. -/
def SharedPtr.destroy (s : SharedPtr) (h : Heap V) : Heap V :=
  match s.m_block with
  | some i => h.delete_shared i
  | none => h

/-- shared_ptr::reset(). -/
def SharedPtr.reset (s : SharedPtr) (h : Heap V) : Heap V × SharedPtr :=
  let h1 := match s.m_block with
    | some i => h.delete_shared i
    | none => h
  (h1, ⟨none, none⟩)

/-- shared_ptr::reset(Y* ptr, Deleter d): releases the current block,
then adopts ptr as the raw-pointer constructor does. On allocation
failure the deleter runs on ptr, the exception is swallowed, and
m_block / m_ptr keep their old values (the block already released). -/
def SharedPtr.resetPtr (s : SharedPtr) (h : Heap V) (ptr : Option Nat) (alloc : Bool) :
    Heap V × SharedPtr × Bool :=
  let h1 := match s.m_block with
    | some i => h.delete_shared i
    | none => h
  if alloc then
    let p := h1.allocBlock (BlockData.pointing ptr)
    (p.1.add_shared p.2, ⟨some p.2, ptr⟩, false)
  else
    (h1.bumpDeleter ptr, ⟨s.m_block, s.m_ptr⟩, false)

/-- shared_ptr::use_count: m_block ? m_block->counter : 0. -/
def SharedPtr.use_count (s : SharedPtr) (h : Heap V) : Nat :=
  match s.m_block with
  | some i =>
    match h.blocks i with
    | some b => b.counter
    | none => 0
  | none => 0

/-- shared_ptr::get. -/
def SharedPtr.get (s : SharedPtr) : Option Nat := s.m_ptr

/-- shared_ptr::operator bool: true iff m_ptr is non-null. -/
def SharedPtr.toBool (s : SharedPtr) : Bool := s.m_ptr.isSome

/-- shared_ptr equality: compares element pointers only. -/
def SharedPtr.eqPtr (a b : SharedPtr) : Bool := a.m_ptr == b.m_ptr

/-- make_shared: new owning_block(args) (the constructed value `v`),
block->add_shared(), return shared_ptr{block, block->get_ptr()}. -/
def make_shared (h : Heap V) (v : V) : Heap V × SharedPtr :=
  let p := h.allocBlock (BlockData.owning (some v))
  (p.1.add_shared p.2, ⟨some p.2, some (embeddedAddr p.2)⟩)

/-- weak_ptr(const shared_ptr&): add_weak_or_null, copy the pointer. -/
def weakFromShared (s : SharedPtr) (h : Heap V) : Heap V × WeakPtr :=
  let p := h.add_weak_or_null s.m_block
  (p.1, ⟨p.2, s.m_ptr⟩)

/-- weak_ptr copy / converting-copy constructor. -/
def WeakPtr.copy (w : WeakPtr) (h : Heap V) : Heap V × WeakPtr :=
  let p := h.add_weak_or_null w.m_block
  (p.1, ⟨p.2, w.m_ptr⟩)

/-- weak_ptr(weak_ptr&&) (non-template overload): the source calls
add_weak_or_null on the source's block and then nulls the source —
it increments the weak count instead of transferring it. -/
def WeakPtr.moveCtor (w : WeakPtr) (h : Heap V) : Heap V × WeakPtr × WeakPtr :=
  let p := h.add_weak_or_null w.m_block
  (p.1, ⟨p.2, w.m_ptr⟩, ⟨none, none⟩)

/-- weak_ptr(weak_ptr<Y>&&) (template overload): plain transfer, the
source is nulled, counts untouched. -/
def WeakPtr.moveCtorT (w : WeakPtr) (h : Heap V) : Heap V × WeakPtr × WeakPtr :=
  (h, ⟨w.m_block, w.m_ptr⟩, ⟨none, none⟩)

/-- The recurring weak release snippet of the source:
if (m_block && m_block->should_delete_weak()) delete m_block. -/
def WeakPtr.weakRelease (w : WeakPtr) (h : Heap V) : Heap V :=
  match w.m_block with
  | some i =>
    let p := h.should_delete_weak i
    if p.2 then p.1.freeBlock i else p.1
  | none => h

/-- weak_ptr::~weak_ptr. -/
def WeakPtr.destroy (w : WeakPtr) (h : Heap V) : Heap V := w.weakRelease h

/-- weak_ptr::operator=(const weak_ptr&): self check, release the
current block, then add_weak_or_null and rebind. -/
def WeakPtr.assign (t other : WeakPtr) (sameObject : Bool) (h : Heap V) :
    Heap V × WeakPtr :=
  if sameObject then (h, t)
  else
    let h1 := t.weakRelease h
    let p := h1.add_weak_or_null other.m_block
    (p.1, ⟨p.2, other.m_ptr⟩)

/-- weak_ptr::operator=(const shared_ptr<Y>&): the source overwrites
m_block and m_ptr without releasing the previously held block. -/
def WeakPtr.assignShared (t : WeakPtr) (other : SharedPtr) (h : Heap V) :
    Heap V × WeakPtr :=
  let p := h.add_weak_or_null other.m_block
  (p.1, ⟨p.2, other.m_ptr⟩)

/-- weak_ptr::operator=(weak_ptr&&) (non-template): self check,
release current, transfer, null the source. -/
def WeakPtr.moveAssign (t other : WeakPtr) (sameObject : Bool) (h : Heap V) :
    Heap V × WeakPtr × WeakPtr :=
  if sameObject then (h, t, other)
  else
    let h1 := t.weakRelease h
    (h1, ⟨other.m_block, other.m_ptr⟩, ⟨none, none⟩)

/-- weak_ptr::operator=(weak_ptr<Y>&&) (template overload): the source
calls add_weak_or_null, does not release the current block and does
not null the source. -/
def WeakPtr.moveAssignT (t other : WeakPtr) (h : Heap V) :
    Heap V × WeakPtr × WeakPtr :=
  let p := h.add_weak_or_null other.m_block
  (p.1, ⟨p.2, other.m_ptr⟩, other)

/-- weak_ptr::expired: !m_block || !m_block->counter. A freed block
cannot be read (undefined behaviour in C++); the model reports true. -/
def WeakPtr.expired (w : WeakPtr) (h : Heap V) : Bool :=
  match w.m_block with
  | some i =>
    match h.blocks i with
    | some b => b.counter == 0
    | none => true
  | none => true

/-- weak_ptr::lock: expired() ? shared_ptr<T>() : shared_ptr<T>(*this). -/
def WeakPtr.lock (w : WeakPtr) (h : Heap V) : Heap V × SharedPtr :=
  if w.expired h then (h, ⟨none, none⟩) else sharedFromWeak w h

theorem size_max_eq : size_max = 18446744073709551616 := by
  norm_num [size_max]

theorem dec64_eq_sub_one {n : Nat} (h1 : 0 < n) (h2 : n < size_max) : dec64 n = n - 1 := by
  rw [size_max_eq] at h2
  unfold dec64
  rw [size_max_eq]
  omega

theorem inc64_dec64 {n : Nat} (h2 : n < size_max) : inc64 (dec64 n) = n := by
  rw [size_max_eq] at h2
  unfold inc64 dec64
  rw [size_max_eq]
  omega

theorem setBlock_blocks_self (h : Heap V) (i : Nat) (b : counting_block V) :
    (h.setBlock i b).blocks i = some b := by
  simp [Heap.setBlock]

theorem add_shared_eq (h : Heap V) (i : Nat) (b : counting_block V)
    (hb : h.blocks i = some b) :
    h.add_shared i = h.setBlock i ⟨inc64 b.counter, inc64 b.weak_counter, b.data⟩ := by
  simp [Heap.add_shared, hb]

theorem add_weak_eq (h : Heap V) (i : Nat) (b : counting_block V)
    (hb : h.blocks i = some b) :
    h.add_weak i = h.setBlock i ⟨b.counter, inc64 b.weak_counter, b.data⟩ := by
  simp [Heap.add_weak, hb]

theorem use_count_some (s : SharedPtr) (h : Heap V) (i : Nat) (b : counting_block V)
    (hs : s.m_block = some i) (hb : h.blocks i = some b) : s.use_count h = b.counter := by
  simp [SharedPtr.use_count, hs, hb]

theorem setBlock_setBlock (h : Heap V) (i : Nat) (b1 b2 : counting_block V) :
    (h.setBlock i b1).setBlock i b2 = h.setBlock i b2 := by
  unfold Heap.setBlock
  congr 1
  funext j
  by_cases hj : j = i <;> simp [hj]

theorem setBlock_eq_self (h : Heap V) (i : Nat) (b : counting_block V)
    (hb : h.blocks i = some b) : h.setBlock i b = h := by
  cases h with
  | mk blocks nxt dc dsc fc src =>
    unfold Heap.setBlock
    simp only [Heap.mk.injEq, and_true, true_and]
    funext j
    by_cases hj : j = i <;> simp_all [hj]

theorem delete_shared_no_dispose (h : Heap V) (i : Nat) (b : counting_block V)
    (hb : h.blocks i = some b) (hc : dec64 b.counter ≠ 0) :
    h.delete_shared i =
      (h.setBlock i ⟨dec64 b.counter, dec64 b.weak_counter, b.data⟩).bumpStrongRelease i := by
  simp [Heap.delete_shared, hb, hc]

theorem should_delete_weak_eq (h : Heap V) (i : Nat) (b : counting_block V)
    (hb : h.blocks i = some b) :
    h.should_delete_weak i =
      (h.setBlock i ⟨b.counter, dec64 b.weak_counter, b.data⟩, dec64 b.weak_counter == 0) := by
  simp [Heap.should_delete_weak, hb]

theorem weakRelease_no_free (w : WeakPtr) (h : Heap V) (i : Nat) (b : counting_block V)
    (hw : w.m_block = some i) (hb : h.blocks i = some b)
    (hne : dec64 b.weak_counter ≠ 0) :
    w.weakRelease h = h.setBlock i ⟨b.counter, dec64 b.weak_counter, b.data⟩ := by
  have hbeq : (dec64 b.weak_counter == 0) = false := by
    simp [hne]
  simp [WeakPtr.weakRelease, hw, should_delete_weak_eq h i b hb, hbeq]

theorem setBlock_bump_setBlock (h : Heap V) (i : Nat) (b1 b2 : counting_block V) :
    ((h.setBlock i b1).bumpStrongRelease i).setBlock i b2
      = (h.setBlock i b2).bumpStrongRelease i := by
  unfold Heap.setBlock Heap.bumpStrongRelease
  congr 1
  funext j
  by_cases hj : j = i <;> simp [hj]

end SPtr

open SPtr

/-- C1: on control-block allocation failure in the raw-pointer
constructor and in reset(ptr, deleter), the deleter does run exactly
once on the supplied pointer, but the failure is swallowed by the
catch-all (the result's exception flag is false), not propagated —
contradicting the claim's propagation part. Evaluated at pointer 5
(constructor) and pointer 9 (reset) with the allocation failing. -/
theorem C1_alloc_failure_deleter_once_not_propagated :
    (let r := sharedFromRaw (Heap.empty Nat) (some 5) false
     r.1.deleterCalls (some 5) = 1 ∧ r.2.2 = false ∧ r.2.1 = ⟨none, some 5⟩) ∧
    (let r0 := sharedFromRaw (Heap.empty Nat) (some 5) true
     let rr := r0.2.1.resetPtr r0.1 (some 9) false
     rr.1.deleterCalls (some 9) = 1 ∧ rr.2.2 = false) := by
  decide

/-- C2: destroying the only SharedRef produced by make_shared drives
the weak count to zero, yet the block's memory is never reclaimed:
the block is still allocated and no free has been recorded, because
shared_ptr::~shared_ptr only calls delete_shared, which never deletes
the block. -/
theorem C2_last_shared_never_frees_block :
    (let r1 := make_shared (Heap.empty Nat) 0
     let h2 := r1.2.destroy r1.1
     h2.blocks 0 = some ⟨0, 0, BlockData.owning none⟩ ∧
     h2.freeCalls 0 = 0 ∧ h2.destroyCalls 0 = 1) := by
  decide

/-- C3: the disposal capability runs twice on one managed object:
make_shared, observe with a weak handle, destroy the shared handle
(first disposal), construct a SharedRef directly from the now-expired
weak handle (strong count resurrects 0 to 1), destroy it (second
disposal). -/
theorem C3_dispose_runs_twice :
    (let r1 := make_shared (Heap.empty Nat) 0
     let r2 := weakFromShared r1.2 r1.1
     let h3 := r1.2.destroy r2.1
     let r4 := sharedFromWeak r2.2 h3
     let h5 := r4.2.destroy r4.1
     r2.2.expired h3 = true ∧ h5.destroyCalls 0 = 2) := by
  decide

/-- C5: weak_ptr::operator=(const shared_ptr&) never releases the
previously referenced block: after the last shared owner of block 0
is gone and the weak handle (the only remaining referent of block 0)
is assigned a SharedRef bound to block 1, block 0 keeps its weak unit
and is never freed, while the handle rebinds to block 1. -/
theorem C5_weak_assign_from_shared_skips_release :
    (let r1 := make_shared (Heap.empty Nat) 3
     let r2 := weakFromShared r1.2 r1.1
     let h3 := r1.2.destroy r2.1
     let r4 := make_shared h3 7
     let r5 := r2.2.assignShared r4.2 r4.1
     r5.1.blocks 0 = some ⟨0, 1, BlockData.owning none⟩ ∧
     r5.1.freeCalls 0 = 0 ∧
     r5.2 = ⟨some 1, some 1⟩ ∧
     r5.1.blocks 1 = some ⟨1, 2, BlockData.owning (some 7)⟩) := by
  decide

/-- C6: the non-template weak_ptr move constructor increments the
block's weak count (add_weak_or_null on the source's block) and then
nulls the source without releasing its unit: the weak count goes from
2 to 3 although move construction must not change any count. -/
theorem C6_weak_move_ctor_bumps_weak_count :
    (let r1 := make_shared (Heap.empty Nat) 5
     let r2 := weakFromShared r1.2 r1.1
     let r3 := r2.2.moveCtor r2.1
     r3.1.blocks 0 = some ⟨1, 3, BlockData.owning (some 5)⟩ ∧
     r3.2.1 = ⟨some 0, some 0⟩ ∧
     r3.2.2 = ⟨none, none⟩) := by
  decide

/-- C7: make_shared allocates one owning block holding the value built
from the arguments, gives the returned handle use_count 1, a block
handle naming that fresh block, and an element pointer equal to the
address of the block's embedded object. -/
theorem C7_make_shared_spec (V : Type) (h : Heap V) (v : V) :
    ((make_shared h v).2).m_block = some h.next ∧
    ((make_shared h v).2).m_ptr = some (embeddedAddr h.next) ∧
    ((make_shared h v).1).blocks h.next = some ⟨1, 1, BlockData.owning (some v)⟩ ∧
    (make_shared h v).2.use_count (make_shared h v).1 = 1 := by
  have halloc :
      ((h.allocBlock (BlockData.owning (some v))).1).blocks h.next
        = some ⟨0, 0, BlockData.owning (some v)⟩ := by
    simp [Heap.allocBlock]
  have hadd := add_shared_eq ((h.allocBlock (BlockData.owning (some v))).1) h.next
    ⟨0, 0, BlockData.owning (some v)⟩ halloc
  have hone : inc64 0 = 1 := by decide
  refine ⟨rfl, rfl, ?_, ?_⟩
  · show ((h.allocBlock (BlockData.owning (some v))).1.add_shared h.next).blocks h.next = _
    rw [hadd, hone]
    exact setBlock_blocks_self _ _ _
  · exact use_count_some _ _ h.next ⟨1, 1, BlockData.owning (some v)⟩ rfl (by
      show ((h.allocBlock (BlockData.owning (some v))).1.add_shared h.next).blocks h.next = _
      rw [hadd, hone]
      exact setBlock_blocks_self _ _ _)

/-- C10: when control-block allocation fails in the raw-pointer
constructor, the resulting handle keeps the supplied element pointer
with a null block: use_count() is 0, boolean conversion is true,
get() returns the pointer, the deleter has already run on it once,
and no exception escapes — boolean truth is decided by the element
pointer alone. -/
theorem C10_alloc_failure_handle_state (V : Type) (h : Heap V) (p : Nat) :
    ((sharedFromRaw h (some p) false).2.1) = ⟨none, some p⟩ ∧
    ((sharedFromRaw h (some p) false).2.1).use_count (sharedFromRaw h (some p) false).1 = 0 ∧
    ((sharedFromRaw h (some p) false).2.1).toBool = true ∧
    ((sharedFromRaw h (some p) false).2.1).get = some p ∧
    ((sharedFromRaw h (some p) false).1).deleterCalls (some p)
      = h.deleterCalls (some p) + 1 ∧
    ((sharedFromRaw h (some p) false).2.2) = false := by
  refine ⟨rfl, rfl, rfl, rfl, ?_, rfl⟩
  simp [sharedFromRaw, Heap.bumpDeleter]

/-- C4 counterexample: a WeakRef whose block is present but expired
(strong count zero) does not yield a null SharedRef on construction:
the constructor increments the strong count from 0 back to 1 and
returns a handle that is non-null in boolean context. -/
theorem C4_expired_weak_gives_nonnull_shared :
    let r1 := make_shared (Heap.empty Nat) 0
    let r2 := weakFromShared r1.2 r1.1
    let h3 := r1.2.destroy r2.1
    let r4 := sharedFromWeak r2.2 h3
    r2.2.expired h3 = true ∧
    r4.2 ≠ (⟨none, none⟩ : SharedPtr) ∧
    r4.2.m_block = some 0 ∧
    r4.2.toBool = true ∧
    r4.2.use_count r4.1 = 1 := by
  decide

/-- C4 amended: constructing a SharedRef from a WeakRef copies the
cached element pointer unconditionally; when the weak handle's block
is absent the result has a null block, and whenever the block is
present — expired or not — the construction increments the block's
strong and weak counts and binds to it. -/
theorem C4_shared_from_weak_behaviour (V : Type) (h : Heap V) (w : WeakPtr) :
    (w.m_block = none → sharedFromWeak w h = (h, ⟨none, w.m_ptr⟩)) ∧
    (∀ (i : Nat) (b : counting_block V), w.m_block = some i → h.blocks i = some b →
      sharedFromWeak w h =
        (h.setBlock i ⟨inc64 b.counter, inc64 b.weak_counter, b.data⟩,
         ⟨some i, w.m_ptr⟩)) := by
  constructor
  · intro hw
    simp [sharedFromWeak, Heap.add_shared_or_null, hw]
  · intro i b hw hb
    simp [sharedFromWeak, hw, Heap.add_shared_or_null, add_shared_eq h i b hb]

/-- C4 witness: the amended theorem applied to a concrete expired
block (strong count 0, weak count 1): the construction rebinds and
increments both counts. -/
theorem C4_shared_from_weak_behaviour_witness :
    (⟨fun j => if j = 0 then some ⟨0, 1, BlockData.owning none⟩ else none,
      1, fun _ => 0, fun _ => 0, fun _ => 0, fun _ => 0⟩ : Heap Nat).blocks 0
        = some ⟨0, 1, BlockData.owning none⟩ ∧
    sharedFromWeak ⟨some 0, some 5⟩
      (⟨fun j => if j = 0 then some ⟨0, 1, BlockData.owning none⟩ else none,
        1, fun _ => 0, fun _ => 0, fun _ => 0, fun _ => 0⟩ : Heap Nat) =
      ((⟨fun j => if j = 0 then some ⟨0, 1, BlockData.owning none⟩ else none,
         1, fun _ => 0, fun _ => 0, fun _ => 0, fun _ => 0⟩ : Heap Nat).setBlock 0
          ⟨inc64 0, inc64 1, BlockData.owning none⟩,
       ⟨some 0, some 5⟩) :=
  ⟨rfl,
   (C4_shared_from_weak_behaviour Nat
      ⟨fun j => if j = 0 then some ⟨0, 1, BlockData.owning none⟩ else none,
       1, fun _ => 0, fun _ => 0, fun _ => 0, fun _ => 0⟩
      ⟨some 0, some 5⟩).2 0 ⟨0, 1, BlockData.owning none⟩ rfl rfl⟩

/-- C8 counterexample: assigning between two distinct SharedRef
handles that reference the same control block does release the
previous (identical) block — delete_shared runs on it once, recorded
by the ghost counter — contradicting the clause that the previous
block is released only when it differs from the new one. The counts
nevertheless end up unchanged. -/
theorem C8_same_block_assign_does_release :
    let r1 := make_shared (Heap.empty Nat) 4
    let r2 := r1.2.copy r1.1
    let r3 := r1.2.assign r2.2 false r2.1
    r3.1.strongReleaseCalls 0 = 1 ∧
    r3.1.blocks 0 = some ⟨2, 2, BlockData.owning (some 4)⟩ ∧
    r3.2 = ⟨some 0, some 0⟩ := by
  decide

/-- C8 amended: self-assignment (same handle object) of a SharedRef
or a WeakRef is a complete no-op. Assignment between two distinct
handles referencing the same control block releases the block and
immediately re-acquires it, so with at least two strong units (resp.
weak units) on the block the counts are left net-unchanged, no
disposal and no block deallocation is triggered, and the only net
effect besides the ghost release marker is pointer rebinding. -/
theorem C8_self_and_same_block_assignment (V : Type) (h : Heap V) :
    (∀ t : SharedPtr, SharedPtr.assign t t true h = (h, t)) ∧
    (∀ (t rhs : SharedPtr) (i : Nat) (b : counting_block V),
      t.m_block = some i → rhs.m_block = some i → h.blocks i = some b →
      2 ≤ b.counter → b.counter < size_max → b.weak_counter < size_max →
      SharedPtr.assign t rhs false h = (h.bumpStrongRelease i, ⟨some i, rhs.m_ptr⟩)) ∧
    (∀ t : WeakPtr, WeakPtr.assign t t true h = (h, t)) ∧
    (∀ (t other : WeakPtr) (i : Nat) (b : counting_block V),
      t.m_block = some i → other.m_block = some i → h.blocks i = some b →
      2 ≤ b.weak_counter → b.weak_counter < size_max →
      WeakPtr.assign t other false h = (h, ⟨some i, other.m_ptr⟩)) := by
  refine ⟨fun t => rfl, ?_, fun t => rfl, ?_⟩
  · intro t rhs i b ht hr hb hc2 hcM hwM
    have hne : dec64 b.counter ≠ 0 := by
      rw [dec64_eq_sub_one (by omega) hcM]
      omega
    obtain ⟨tb, tp⟩ := t
    obtain ⟨rb, rp⟩ := rhs
    simp only at ht hr
    subst ht
    subst hr
    have step1 : SharedPtr.assign ⟨some i, tp⟩ ⟨some i, rp⟩ false h =
        (((h.delete_shared i).add_shared_or_null (some i)).1, ⟨some i, rp⟩) := rfl
    rw [step1]
    rw [delete_shared_no_dispose h i b hb hne]
    have hb1 : (((h.setBlock i ⟨dec64 b.counter, dec64 b.weak_counter, b.data⟩).bumpStrongRelease i)).blocks i
        = some ⟨dec64 b.counter, dec64 b.weak_counter, b.data⟩ :=
      setBlock_blocks_self h i _
    show ((((h.setBlock i ⟨dec64 b.counter, dec64 b.weak_counter, b.data⟩).bumpStrongRelease i)).add_shared i,
          (⟨some i, rp⟩ : SharedPtr)) = _
    rw [add_shared_eq _ i _ hb1]
    simp only [inc64_dec64 hcM, inc64_dec64 hwM]
    rw [setBlock_bump_setBlock]
    rw [setBlock_eq_self h i b hb]
  · intro t other i b ht ho hb hw2 hwM
    have hne : dec64 b.weak_counter ≠ 0 := by
      rw [dec64_eq_sub_one (by omega) hwM]
      omega
    obtain ⟨tb, tp⟩ := t
    obtain ⟨ob, op⟩ := other
    simp only at ht ho
    subst ht
    subst ho
    have step1 : WeakPtr.assign ⟨some i, tp⟩ ⟨some i, op⟩ false h =
        ((((⟨some i, tp⟩ : WeakPtr).weakRelease h).add_weak_or_null (some i)).1,
         ⟨some i, op⟩) := rfl
    rw [step1]
    rw [weakRelease_no_free ⟨some i, tp⟩ h i b rfl hb hne]
    have hb1 : ((h.setBlock i ⟨b.counter, dec64 b.weak_counter, b.data⟩)).blocks i
        = some ⟨b.counter, dec64 b.weak_counter, b.data⟩ :=
      setBlock_blocks_self h i _
    show (((h.setBlock i ⟨b.counter, dec64 b.weak_counter, b.data⟩)).add_weak i,
          (⟨some i, op⟩ : WeakPtr)) = _
    rw [add_weak_eq _ i _ hb1]
    simp only [inc64_dec64 hwM]
    rw [setBlock_setBlock]
    rw [setBlock_eq_self h i b hb]

/-- C8 witness: the amended theorem applied at a concrete heap whose
block 0 carries two strong and two weak units, with two distinct
handles bound to it: the shared assignment nets out to the ghost
release marker plus rebinding, the weak assignment to rebinding. -/
theorem C8_self_and_same_block_assignment_witness :
    (2 : Nat) ≤ 2 ∧
    SharedPtr.assign ⟨some 0, some 1⟩ ⟨some 0, some 2⟩ false
      (⟨fun j => if j = 0 then some ⟨2, 2, BlockData.owning (some 4)⟩ else none,
        1, fun _ => 0, fun _ => 0, fun _ => 0, fun _ => 0⟩ : Heap Nat) =
      ((⟨fun j => if j = 0 then some ⟨2, 2, BlockData.owning (some 4)⟩ else none,
         1, fun _ => 0, fun _ => 0, fun _ => 0, fun _ => 0⟩ : Heap Nat).bumpStrongRelease 0,
       ⟨some 0, some 2⟩) ∧
    WeakPtr.assign ⟨some 0, some 1⟩ ⟨some 0, some 2⟩ false
      (⟨fun j => if j = 0 then some ⟨2, 2, BlockData.owning (some 4)⟩ else none,
        1, fun _ => 0, fun _ => 0, fun _ => 0, fun _ => 0⟩ : Heap Nat) =
      ((⟨fun j => if j = 0 then some ⟨2, 2, BlockData.owning (some 4)⟩ else none,
         1, fun _ => 0, fun _ => 0, fun _ => 0, fun _ => 0⟩ : Heap Nat),
       ⟨some 0, some 2⟩) :=
  ⟨le_refl 2,
   (C8_self_and_same_block_assignment Nat
      ⟨fun j => if j = 0 then some ⟨2, 2, BlockData.owning (some 4)⟩ else none,
       1, fun _ => 0, fun _ => 0, fun _ => 0, fun _ => 0⟩).2.1
     ⟨some 0, some 1⟩ ⟨some 0, some 2⟩ 0 ⟨2, 2, BlockData.owning (some 4)⟩
     rfl rfl rfl (by decide) (by decide) (by decide),
   (C8_self_and_same_block_assignment Nat
      ⟨fun j => if j = 0 then some ⟨2, 2, BlockData.owning (some 4)⟩ else none,
       1, fun _ => 0, fun _ => 0, fun _ => 0, fun _ => 0⟩).2.2.2
     ⟨some 0, some 1⟩ ⟨some 0, some 2⟩ 0 ⟨2, 2, BlockData.owning (some 4)⟩
     rfl rfl rfl (by decide) (by decide)⟩

/-- C9 counterexample: a WeakRef observed from an aliasing SharedRef
whose element pointer is null is not expired (the block's strong
count is 2), yet lock() returns a SharedRef that is false in boolean
context — not a non-null handle as claimed — while still sharing the
block and incrementing use_count to 3. -/
theorem C9_lock_can_return_null_pointer_handle :
    let r1 := make_shared (Heap.empty Nat) 5
    let r2 := r1.2.aliasCtor none r1.1
    let r3 := weakFromShared r2.2 r2.1
    let r4 := r3.2.lock r3.1
    r3.2.expired r3.1 = false ∧
    r4.2.toBool = false ∧
    r4.2.m_block = some 0 ∧
    r4.2.use_count r4.1 = 3 := by
  decide

/-- C9 amended: expired() is true iff the block is absent or its
strong count is zero; lock() returns the default null SharedRef when
expired, and otherwise a SharedRef that shares the block — with the
strong and weak counts incremented, so use_count grows by one — and
carries the weak handle's cached element pointer (so the result is
non-null in boolean context exactly when that cached pointer is
non-null). -/
theorem C9_expired_and_lock (V : Type) (h : Heap V) (w : WeakPtr) :
    (w.m_block = none → w.expired h = true) ∧
    (∀ (i : Nat) (b : counting_block V), w.m_block = some i → h.blocks i = some b →
      w.expired h = (b.counter == 0)) ∧
    (w.expired h = true → w.lock h = (h, ⟨none, none⟩)) ∧
    (∀ (i : Nat) (b : counting_block V),
      w.expired h = false → w.m_block = some i → h.blocks i = some b →
      w.lock h = (h.setBlock i ⟨inc64 b.counter, inc64 b.weak_counter, b.data⟩,
                  ⟨some i, w.m_ptr⟩) ∧
      ((w.lock h).2).use_count (w.lock h).1 = inc64 b.counter ∧
      ((w.lock h).2).toBool = w.m_ptr.isSome) := by
  refine ⟨?_, ?_, ?_, ?_⟩
  · intro hw
    simp [WeakPtr.expired, hw]
  · intro i b hw hb
    simp [WeakPtr.expired, hw, hb]
  · intro hexp
    simp [WeakPtr.lock, hexp]
  · intro i b hexp hw hb
    have hlock : w.lock h =
        (h.setBlock i ⟨inc64 b.counter, inc64 b.weak_counter, b.data⟩, ⟨some i, w.m_ptr⟩) := by
      simp only [WeakPtr.lock, hexp, Bool.false_eq_true, if_false]
      simp [sharedFromWeak, hw, Heap.add_shared_or_null, add_shared_eq h i b hb]
    refine ⟨hlock, ?_, ?_⟩
    · rw [hlock]
      exact use_count_some _ _ i ⟨inc64 b.counter, inc64 b.weak_counter, b.data⟩ rfl
        (setBlock_blocks_self h i _)
    · rw [hlock]
      rfl

/-- C9 witness: the amended theorem applied to a live block with one
strong owner and a weak handle caching pointer 0: lock rebinds,
increments both counts and yields use_count 2. -/
theorem C9_expired_and_lock_witness :
    (⟨some 0, some 0⟩ : WeakPtr).expired
      (⟨fun j => if j = 0 then some ⟨1, 2, BlockData.owning (some 5)⟩ else none,
        1, fun _ => 0, fun _ => 0, fun _ => 0, fun _ => 0⟩ : Heap Nat) = false ∧
    (⟨some 0, some 0⟩ : WeakPtr).lock
      (⟨fun j => if j = 0 then some ⟨1, 2, BlockData.owning (some 5)⟩ else none,
        1, fun _ => 0, fun _ => 0, fun _ => 0, fun _ => 0⟩ : Heap Nat) =
      ((⟨fun j => if j = 0 then some ⟨1, 2, BlockData.owning (some 5)⟩ else none,
         1, fun _ => 0, fun _ => 0, fun _ => 0, fun _ => 0⟩ : Heap Nat).setBlock 0
          ⟨inc64 1, inc64 2, BlockData.owning (some 5)⟩,
       ⟨some 0, some 0⟩) :=
  ⟨rfl,
   ((C9_expired_and_lock Nat
      ⟨fun j => if j = 0 then some ⟨1, 2, BlockData.owning (some 5)⟩ else none,
       1, fun _ => 0, fun _ => 0, fun _ => 0, fun _ => 0⟩
      ⟨some 0, some 0⟩).2.2.2 0 ⟨1, 2, BlockData.owning (some 5)⟩ rfl rfl rfl).1⟩
